import Mathlib

/-!
# Verification of the BMI-Calculator widget

Shallow embedding of `src/src/components/BMICalculator.jsx`.

The component keeps five pieces of local state (`height`, `weight`, `bmi`,
`message`, `darkMode`) and four handlers:

* the two `onChange` handlers store the raw input string (`setHeight`,
  `setWeight`);
* `calculateBMI` (form submission) checks `if (height && weight)`, computes
  `(weight / (height * height)).toFixed(2)` and classifies the resulting
  string against the thresholds `18.5`, `24.9`, `29.9`, otherwise it sets the
  fixed error message;
* `resetForm` clears `height`, `weight`, `bmi`, `message` (it does not touch
  `darkMode`);
* the theme button flips `darkMode`.

JavaScript numbers are modelled by `JSNum`: `NaN`, the two infinities,
and finite values represented as fractions of integers (`Frac`,
denominator positive).  This is an exact-arithmetic abstraction of
IEEE-754 binary64: parsing, multiplication and division return the exact
rational value instead of the nearest double, and `toFixed(2)` rounds
that exact value.  The abstraction is order-faithful on the values the
theorems below range over: two-decimal grid values compared against the
thresholds `18.5`, `24.9`, `29.9` (no binary64 value separates a
two-decimal value from its threshold verdict), the concrete scenario
inputs (whose quotients lie far from every half-hundredth boundary), and
the `NaN` / `Infinity` propagation cases.  It is deliberately not a model
of sub-ulp floating-point effects — for the input `"1.005"` the binary64
value lies below the decimal tie, so the program prints `"1.00"` where
exact decimal rounding gives `"1.01"` — and properties whose truth turns
on such effects are outside its scope and are not settled against it.
String-to-number coercion (`Number(s)` / the implicit `ToNumber` used by
`*`, `/` and `<`) covers trimmed decimal literals (optional sign, digits,
decimal point, exponent), the radix integer literals (`0x`/`0X` hex,
`0o`/`0O` octal, `0b`/`0B` binary, signless as in JavaScript), and the
literals `Infinity` / `-Infinity`; every other string is mapped to `NaN`.
A divisor that is the number zero is treated as JavaScript's `+0` (the
squared height `h * h` is never `-0`).
-/

/-- An exact finite JavaScript number: an integer fraction with positive
denominator (not necessarily reduced). -/
structure Frac where
  num : ℤ
  den : ℤ
  den_pos : 0 < den

/-- The rational value of a fraction. -/
def Frac.val (f : Frac) : ℚ := (f.num : ℚ) / (f.den : ℚ)

/-- A fraction from an integer. -/
def Frac.ofInt (n : ℤ) : Frac := ⟨n, 1, one_pos⟩

/-- Exact product, as performed by `height * height`. -/
def Frac.mulF (a b : Frac) : Frac :=
  ⟨a.num * b.num, a.den * b.den, mul_pos a.den_pos b.den_pos⟩

/-- Exact quotient (meaningful when `b.num ≠ 0`); the sign is pushed into
the numerator so the denominator stays positive. -/
def Frac.divF (a b : Frac) : Frac :=
  if h : 0 < a.den * b.num then ⟨a.num * b.den, a.den * b.num, h⟩
  else if h2 : 0 < -(a.den * b.num) then ⟨-(a.num * b.den), -(a.den * b.num), h2⟩
  else Frac.ofInt 0

/-- Negation. -/
def Frac.negF (f : Frac) : Frac := ⟨-f.num, f.den, f.den_pos⟩

/-- Value comparison by cross multiplication (denominators are positive). -/
def Frac.blt (a b : Frac) : Bool := decide (a.num * b.den < b.num * a.den)

/-- `⌊100·f + 1/2⌋`: the integer of hundredths chosen by `toFixed(2)`
(round half up), computed by floor division. -/
def Frac.roundTo2 (f : Frac) : ℤ := Int.fdiv (200 * f.num + f.den) (2 * f.den)

/-- A JavaScript number: `NaN`, `±Infinity`, or an exact finite value. -/
inductive JSNum where
  | nan : JSNum
  | posInf : JSNum
  | negInf : JSNum
  | num : Frac → JSNum

/-- JavaScript multiplication (used for `height * height`). -/
def jsMul : JSNum → JSNum → JSNum
  | .nan, _ => .nan
  | _, .nan => .nan
  | .posInf, .posInf => .posInf
  | .posInf, .negInf => .negInf
  | .negInf, .posInf => .negInf
  | .negInf, .negInf => .posInf
  | .posInf, .num f => if f.num = 0 then .nan else if 0 < f.num then .posInf else .negInf
  | .num f, .posInf => if f.num = 0 then .nan else if 0 < f.num then .posInf else .negInf
  | .negInf, .num f => if f.num = 0 then .nan else if 0 < f.num then .negInf else .posInf
  | .num f, .negInf => if f.num = 0 then .nan else if 0 < f.num then .negInf else .posInf
  | .num a, .num b => .num (a.mulF b)

/-- JavaScript division (used for `weight / (height * height)`); a zero
divisor is `+0`, so a nonzero finite value divided by zero gives a signed
infinity and `0 / 0` gives `NaN`. -/
def jsDiv : JSNum → JSNum → JSNum
  | .nan, _ => .nan
  | _, .nan => .nan
  | .posInf, .posInf => .nan
  | .posInf, .negInf => .nan
  | .negInf, .posInf => .nan
  | .negInf, .negInf => .nan
  | .posInf, .num f => if f.num < 0 then .negInf else .posInf
  | .negInf, .num f => if f.num < 0 then .posInf else .negInf
  | .num _, .posInf => .num (Frac.ofInt 0)
  | .num _, .negInf => .num (Frac.ofInt 0)
  | .num a, .num b =>
      if b.num = 0 then
        if a.num = 0 then .nan else if 0 < a.num then .posInf else .negInf
      else .num (a.divF b)

/-- JavaScript `<` on numbers: any comparison with `NaN` is false. -/
def jsLt : JSNum → JSNum → Bool
  | .nan, _ => false
  | _, .nan => false
  | .posInf, _ => false
  | _, .posInf => true
  | .negInf, .negInf => false
  | .negInf, _ => true
  | .num _, .negInf => false
  | .num a, .num b => a.blt b

/-- Numeric value of a digit character. -/
def digToNat (c : Char) : ℕ := c.toNat - 48

/-- Value of a digit string read left to right. -/
def digitsVal (cs : List Char) : ℕ := cs.foldl (fun a c => 10 * a + digToNat c) 0

/-- Apply a decimal exponent `10 ^ k` (or `10 ^ (-k)` when `neg`). -/
def Frac.applyExp (f : Frac) (neg : Bool) (k : ℕ) : Frac :=
  if neg then ⟨f.num, f.den * (10 : ℤ) ^ k, mul_pos f.den_pos (pow_pos (by norm_num) k)⟩
  else ⟨f.num * (10 : ℤ) ^ k, f.den, f.den_pos⟩

/-- Parse an unsigned decimal literal `digits [. digits] [e|E [+|-] digits]`;
`none` is JavaScript's `NaN` outcome. -/
def parseDec (cs : List Char) : Option Frac :=
  let ip := cs.takeWhile Char.isDigit
  let r1 := cs.dropWhile Char.isDigit
  let fp := match r1 with
    | '.' :: t => t.takeWhile Char.isDigit
    | _ => []
  let r2 := match r1 with
    | '.' :: t => t.dropWhile Char.isDigit
    | _ => r1
  if ip = [] ∧ fp = [] then none
  else
    let mant : Frac :=
      ⟨((digitsVal ip * 10 ^ fp.length + digitsVal fp : ℕ) : ℤ),
        (10 : ℤ) ^ fp.length, pow_pos (by norm_num) _⟩
    match r2 with
    | [] => some mant
    | c :: r3 =>
      if c = 'e' ∨ c = 'E' then
        match r3 with
        | '+' :: r4 =>
            if r4 ≠ [] ∧ r4.all Char.isDigit then some (mant.applyExp false (digitsVal r4))
            else none
        | '-' :: r4 =>
            if r4 ≠ [] ∧ r4.all Char.isDigit then some (mant.applyExp true (digitsVal r4))
            else none
        | r4 =>
            if r4 ≠ [] ∧ r4.all Char.isDigit then some (mant.applyExp false (digitsVal r4))
            else none
      else none

/-- Strip leading and trailing whitespace from a character list. -/
def trimChars (cs : List Char) : List Char :=
  ((cs.dropWhile Char.isWhitespace).reverse.dropWhile Char.isWhitespace).reverse

/-- Value of a hexadecimal digit character; `16` for anything else. -/
def hexDigitVal (c : Char) : ℕ :=
  if '0' ≤ c ∧ c ≤ '9' then c.toNat - 48
  else if 'a' ≤ c ∧ c ≤ 'f' then c.toNat - 87
  else if 'A' ≤ c ∧ c ≤ 'F' then c.toNat - 55
  else 16

/-- Value of a digit string in base `r`, read left to right. -/
def radixVal (r : ℕ) (cs : List Char) : ℕ := cs.foldl (fun a c => r * a + hexDigitVal c) 0

/-- JavaScript radix integer literals: `0x`/`0X` hexadecimal, `0o`/`0O`
octal, `0b`/`0B` binary.  A recognised radix prefix commits: invalid or
missing digits give `NaN`, never a fallback to the decimal grammar; no
sign is permitted (`Number("-0x10")` is `NaN`).  `none` means the string
has no radix prefix. -/
def parseRadix (cs : List Char) : Option JSNum :=
  let core : ℕ → List Char → Option JSNum := fun r t =>
    if t ≠ [] ∧ t.all fun c => hexDigitVal c < r then
      some (JSNum.num ⟨(radixVal r t : ℕ), 1, one_pos⟩)
    else some JSNum.nan
  match cs with
  | '0' :: 'x' :: t => core 16 t
  | '0' :: 'X' :: t => core 16 t
  | '0' :: 'o' :: t => core 8 t
  | '0' :: 'O' :: t => core 8 t
  | '0' :: 'b' :: t => core 2 t
  | '0' :: 'B' :: t => core 2 t
  | _ => none

/-- JavaScript string-to-number coercion (`ToNumber`): trim, empty means `0`,
then a radix integer literal, or an optional sign followed by `Infinity` or
a decimal literal; anything else is `NaN`. -/
def parseNum (s : String) : JSNum :=
  let cs := trimChars s.data
  if cs = [] then .num (Frac.ofInt 0)
  else
    match parseRadix cs with
    | some v => v
    | none =>
      let negSign := cs.head? = some '-'
      let body := if cs.head? = some '-' ∨ cs.head? = some '+' then cs.tail else cs
      if body = "Infinity".data then (if negSign then .negInf else .posInf)
      else
        match parseDec body with
        | some f => .num (if negSign then f.negF else f)
        | none => .nan

/-- Decimal digits of `n`, least significant first; `fuel ≥ n` suffices. -/
def natDigitsAux : ℕ → ℕ → List Char
  | 0, _ => []
  | fuel + 1, n => if n = 0 then [] else Nat.digitChar (n % 10) :: natDigitsAux fuel (n / 10)

/-- Decimal rendering of a natural number. -/
def natToStr (n : ℕ) : String :=
  if n = 0 then "0" else String.mk (natDigitsAux n n).reverse

/-- Render `n` hundredths as a decimal string with exactly two digits after
the point, as `toFixed(2)` does for nonnegative values. -/
def fmtCents (n : ℕ) : String :=
  natToStr (n / 100) ++ "." ++ String.mk [Nat.digitChar (n / 10 % 10), Nat.digitChar (n % 10)]

/-- JavaScript `Number.prototype.toFixed(2)`: `NaN` and the infinities print
their names; a finite value rounds half away from zero to hundredths. -/
def toFixed2 : JSNum → String
  | .nan => "NaN"
  | .posInf => "Infinity"
  | .negInf => "-Infinity"
  | .num f =>
      if f.num < 0 then "-" ++ fmtCents (Frac.roundTo2 f.negF).toNat
      else fmtCents (Frac.roundTo2 f).toNat

/-- The threshold `18.5` as it appears in the source. -/
def th185 : Frac := ⟨185, 10, by norm_num⟩

/-- The threshold `24.9` as it appears in the source. -/
def th249 : Frac := ⟨249, 10, by norm_num⟩

/-- The threshold `29.9` as it appears in the source. -/
def th299 : Frac := ⟨299, 10, by norm_num⟩

/-- The classification ladder of `calculateBMI`: the stored string
`bmiValue` is compared with the numeric thresholds, so JavaScript coerces it
back to a number before each `<`. -/
def classify (bmiValue : String) : String :=
  if jsLt (parseNum bmiValue) (.num th185) then "Underweight"
  else if jsLt (parseNum bmiValue) (.num th249) then "Normal weight"
  else if jsLt (parseNum bmiValue) (.num th299) then "Overweight"
  else "Obese"

/-- The component's local state: `height`, `weight`, `bmi`, `message`,
`darkMode` as declared by the five `useState` hooks. -/
structure WidgetState where
  height : String
  weight : String
  bmi : Option String
  message : String
  darkMode : Bool
deriving DecidableEq

/-- The initial state of the five hooks: `""`, `""`, `null`, `""`, `false`. -/
def initState : WidgetState :=
  { height := "", weight := "", bmi := none, message := "", darkMode := false }

/-- The fixed error message of the `else` branch. -/
def errMsg : String := "Please enter valid height and weight"

/-- `calculateBMI`: the `if (height && weight)` truthiness test passes
exactly when both strings are non-empty; on success the quotient is
formatted with `toFixed(2)`, stored, and classified; on failure only the
message is set. -/
def calculateBMI (s : WidgetState) : WidgetState :=
  if s.height ≠ "" ∧ s.weight ≠ "" then
    let bmiValue :=
      toFixed2 (jsDiv (parseNum s.weight) (jsMul (parseNum s.height) (parseNum s.height)))
    { s with bmi := some bmiValue, message := classify bmiValue }
  else
    { s with message := errMsg }

/-- `resetForm`: clears the two fields, the result and the message (and
nothing else). -/
def resetForm (s : WidgetState) : WidgetState :=
  { s with height := "", weight := "", bmi := none, message := "" }

/-- The height field's `onChange` handler: store the raw string. -/
def onHeightChange (s : WidgetState) (v : String) : WidgetState := { s with height := v }

/-- The weight field's `onChange` handler: store the raw string. -/
def onWeightChange (s : WidgetState) (v : String) : WidgetState := { s with weight := v }

/-- The theme button's `onClick`: `setDarkMode(!darkMode)`. -/
def toggleTheme (s : WidgetState) : WidgetState := { s with darkMode := !s.darkMode }

/-- The user-visible events of the widget. -/
inductive WEvent where
  | editHeight : String → WEvent
  | editWeight : String → WEvent
  | submit : WEvent
  | reset : WEvent
  | toggleDark : WEvent

/-- One event step of the widget. -/
def step (s : WidgetState) : WEvent → WidgetState
  | .editHeight v => onHeightChange s v
  | .editWeight v => onWeightChange s v
  | .submit => calculateBMI s
  | .reset => resetForm s
  | .toggleDark => toggleTheme s

/-- The state after a sequence of events from the initial state. -/
def run (es : List WEvent) : WidgetState := es.foldl step initState

/-- Whether the result block is rendered: the JSX guard `{bmi && (...)}` is
truthy exactly when `bmi` is a non-empty string (it is `null` before the
first successful submission). -/
def renderResult (s : WidgetState) : Bool :=
  match s.bmi with
  | none => false
  | some v => decide (v ≠ "")

/-- The informal state machine of spec §4.5. -/
inductive AbsState where
  | empt : AbsState
  | errorShown : AbsState
  | resultShown : AbsState
deriving DecidableEq

/-- The §4.5 transitions, driven by the concrete state at the moment of the
event: submission with both fields filled enters `resultShown`, submission
with a field empty enters `errorShown`, reset enters `empt`, edits and the
theme toggle stay put. -/
def absStep (s : WidgetState) (a : AbsState) : WEvent → AbsState
  | .submit => if s.height ≠ "" ∧ s.weight ≠ "" then .resultShown else .errorShown
  | .reset => .empt
  | _ => a

/-- Run the widget and the §4.5 machine side by side from their initial
states. -/
def runAbs (es : List WEvent) : WidgetState × AbsState :=
  es.foldl (fun p e => (step p.1 e, absStep p.1 p.2 e)) (initState, AbsState.empt)

/-- A string that ends in a decimal point followed by exactly two digits,
with no other decimal point: the shape of a two-decimal fixed-point
rendering. -/
def twoDecimals (s : String) : Prop :=
  ∃ pre b c, s.data = pre ++ ['.', b, c] ∧ b.isDigit = true ∧ c.isDigit = true ∧ '.' ∉ pre

/-! ## Value semantics of `Frac` -/

theorem Frac.den_pos_q (f : Frac) : (0 : ℚ) < (f.den : ℚ) := by exact_mod_cast f.den_pos

theorem Frac.blt_iff (a b : Frac) : a.blt b = true ↔ a.val < b.val := by
  rw [Frac.blt, decide_eq_true_iff, Frac.val, Frac.val,
    div_lt_div_iff₀ a.den_pos_q b.den_pos_q]
  constructor <;> intro h <;> exact_mod_cast h

/-! ## Digit rendering -/

theorem digitChar_isDigit {m : ℕ} (h : m < 10) : (Nat.digitChar m).isDigit = true := by
  interval_cases m <;> rfl

theorem digitChar_ne_dot {m : ℕ} (h : m < 10) : Nat.digitChar m ≠ '.' := by
  interval_cases m <;> decide

theorem natDigitsAux_mem (fuel : ℕ) :
    ∀ n c, c ∈ natDigitsAux fuel n → ∃ m, m < 10 ∧ c = Nat.digitChar m := by
  induction fuel with
  | zero => intro n c hc; simp [natDigitsAux] at hc
  | succ k ih =>
    intro n c hc
    rw [natDigitsAux] at hc
    by_cases h : n = 0
    · rw [if_pos h] at hc; simp at hc
    · rw [if_neg h] at hc
      rcases List.mem_cons.mp hc with h1 | h1
      · exact ⟨n % 10, Nat.mod_lt _ (by norm_num), h1⟩
      · exact ih _ _ h1

theorem natToStr_chars (n : ℕ) (c : Char) (hc : c ∈ (natToStr n).data) :
    ∃ m, m < 10 ∧ c = Nat.digitChar m := by
  rw [natToStr] at hc
  by_cases h : n = 0
  · rw [if_pos h] at hc
    simp at hc
    exact ⟨0, by norm_num, by rw [hc]; rfl⟩
  · rw [if_neg h] at hc
    exact natDigitsAux_mem n n c (List.mem_reverse.mp hc)

theorem fmtCents_data (n : ℕ) :
    (fmtCents n).data =
      (natToStr (n / 100)).data ++ '.' :: [Nat.digitChar (n / 10 % 10), Nat.digitChar (n % 10)] := by
  rw [fmtCents, String.data_append, String.data_append]
  simp [List.append_assoc]

theorem fmtCents_twoDecimals (n : ℕ) : twoDecimals (fmtCents n) := by
  refine ⟨(natToStr (n / 100)).data, Nat.digitChar (n / 10 % 10), Nat.digitChar (n % 10),
    ?_, digitChar_isDigit (Nat.mod_lt _ (by norm_num)),
    digitChar_isDigit (Nat.mod_lt _ (by norm_num)), ?_⟩
  · rw [fmtCents_data]
  · intro hc
    obtain ⟨m, hm, hcm⟩ := natToStr_chars _ _ hc
    exact digitChar_ne_dot hm hcm.symm

theorem twoDecimals_ne_empty {s : String} (h : twoDecimals s) : s ≠ "" := by
  obtain ⟨pre, b, c, hdata, -, -, -⟩ := h
  intro he
  rw [he] at hdata
  simp at hdata

/-! ## The calculator's two branches and the trace invariants -/

theorem toFixed2_ne_empty (x : JSNum) : toFixed2 x ≠ "" := by
  cases x with
  | nan => decide
  | posInf => decide
  | negInf => decide
  | num f =>
    rw [toFixed2]
    split_ifs
    · intro he
      have := congrArg String.data he
      rw [String.data_append] at this
      simp at this
    · exact twoDecimals_ne_empty (fmtCents_twoDecimals _)

theorem calculateBMI_success (s : WidgetState) (h1 : s.height ≠ "") (h2 : s.weight ≠ "") :
    calculateBMI s =
      { s with
        bmi := some (toFixed2 (jsDiv (parseNum s.weight)
          (jsMul (parseNum s.height) (parseNum s.height)))),
        message := classify (toFixed2 (jsDiv (parseNum s.weight)
          (jsMul (parseNum s.height) (parseNum s.height)))) } := by
  rw [calculateBMI, if_pos ⟨h1, h2⟩]

theorem calculateBMI_fail (s : WidgetState) (h : s.height = "" ∨ s.weight = "") :
    calculateBMI s = { s with message := errMsg } := by
  rw [calculateBMI, if_neg]
  tauto

theorem msgInv_step (s : WidgetState)
    (hs : ∀ b, s.bmi = some b → s.message ≠ errMsg → s.message = classify b) (e : WEvent) :
    ∀ b, (step s e).bmi = some b → (step s e).message ≠ errMsg →
      (step s e).message = classify b := by
  cases e with
  | editHeight v => exact hs
  | editWeight v => exact hs
  | toggleDark => exact hs
  | reset => intro b hb; exact absurd hb (by rw [step, resetForm]; simp)
  | submit =>
    by_cases h1 : s.height = "" ∨ s.weight = ""
    · intro b hb hm
      rw [step, calculateBMI_fail s h1] at hm
      exact absurd rfl hm
    · push_neg at h1
      intro b hb hm
      rw [step, calculateBMI_success s h1.1 h1.2] at hb ⊢
      injection hb with hb
      rw [hb]

theorem msgInv_foldl (es : List WEvent) :
    ∀ s, (∀ b, s.bmi = some b → s.message ≠ errMsg → s.message = classify b) →
      ∀ b, (es.foldl step s).bmi = some b → (es.foldl step s).message ≠ errMsg →
        (es.foldl step s).message = classify b := by
  induction es with
  | nil => intro s hs; exact hs
  | cons e t ih => intro s hs; exact ih (step s e) (msgInv_step s hs e)

theorem renderResult_of_bmi (s : WidgetState) (v : String) (hb : s.bmi = some v)
    (hv : v ≠ "") : renderResult s = true := by
  rw [renderResult, hb]
  exact decide_eq_true hv

theorem absInv_step (s : WidgetState) (a : AbsState)
    (h1 : a = AbsState.empt → s.bmi = none ∧ s.message = "")
    (h2 : a = AbsState.resultShown → renderResult s = true)
    (h3 : a = AbsState.errorShown → s.message = errMsg) (e : WEvent) :
    (absStep s a e = AbsState.empt → (step s e).bmi = none ∧ (step s e).message = "") ∧
    (absStep s a e = AbsState.resultShown → renderResult (step s e) = true) ∧
    (absStep s a e = AbsState.errorShown → (step s e).message = errMsg) := by
  cases e with
  | editHeight v =>
    refine ⟨fun ha => ?_, fun ha => ?_, fun ha => ?_⟩
    · exact h1 ha
    · have := h2 ha
      rw [renderResult] at this ⊢
      exact this
    · exact h3 ha
  | editWeight v =>
    refine ⟨fun ha => ?_, fun ha => ?_, fun ha => ?_⟩
    · exact h1 ha
    · have := h2 ha
      rw [renderResult] at this ⊢
      exact this
    · exact h3 ha
  | toggleDark =>
    refine ⟨fun ha => ?_, fun ha => ?_, fun ha => ?_⟩
    · exact h1 ha
    · have := h2 ha
      rw [renderResult] at this ⊢
      exact this
    · exact h3 ha
  | reset =>
    refine ⟨fun ha => ⟨rfl, rfl⟩, fun ha => ?_, fun ha => ?_⟩ <;> cases ha
  | submit =>
    by_cases hc : s.height ≠ "" ∧ s.weight ≠ ""
    · have habs : absStep s a WEvent.submit = AbsState.resultShown := by
        rw [absStep, if_pos hc]
      rw [habs]
      refine ⟨fun ha => ?_, fun ha => ?_, fun ha => ?_⟩
      · cases ha
      · rw [step, calculateBMI_success s hc.1 hc.2]
        exact renderResult_of_bmi _ _ rfl (toFixed2_ne_empty _)
      · cases ha
    · have habs : absStep s a WEvent.submit = AbsState.errorShown := by
        rw [absStep, if_neg hc]
      have hor : s.height = "" ∨ s.weight = "" := by tauto
      rw [habs]
      refine ⟨fun ha => ?_, fun ha => ?_, fun ha => ?_⟩
      · cases ha
      · cases ha
      · rw [step, calculateBMI_fail s hor]

theorem absInv_foldl (es : List WEvent) :
    ∀ s a, (a = AbsState.empt → s.bmi = none ∧ s.message = "") →
      (a = AbsState.resultShown → renderResult s = true) →
      (a = AbsState.errorShown → s.message = errMsg) →
      (((es.foldl (fun p e => (step p.1 e, absStep p.1 p.2 e)) (s, a)).2 = AbsState.empt →
          (es.foldl (fun p e => (step p.1 e, absStep p.1 p.2 e)) (s, a)).1.bmi = none ∧
          (es.foldl (fun p e => (step p.1 e, absStep p.1 p.2 e)) (s, a)).1.message = "") ∧
        ((es.foldl (fun p e => (step p.1 e, absStep p.1 p.2 e)) (s, a)).2 = AbsState.resultShown →
          renderResult (es.foldl (fun p e => (step p.1 e, absStep p.1 p.2 e)) (s, a)).1 = true) ∧
        ((es.foldl (fun p e => (step p.1 e, absStep p.1 p.2 e)) (s, a)).2 = AbsState.errorShown →
          (es.foldl (fun p e => (step p.1 e, absStep p.1 p.2 e)) (s, a)).1.message = errMsg)) := by
  induction es with
  | nil => intro s a ha1 ha2 ha3; exact ⟨ha1, ha2, ha3⟩
  | cons e t ih =>
    intro s a ha1 ha2 ha3
    obtain ⟨g1, g2, g3⟩ := absInv_step s a ha1 ha2 ha3 e
    exact ih (step s e) (absStep s a e) g1 g2 g3

/-! ## The claims -/

/-- C2: the classification ladder is a total, deterministic, pure function
of the (re-coerced) rounded BMI value, with band boundaries exactly at
`18.5`, `24.9` and `29.9`: `v < 18.5` gives `"Underweight"`,
`18.5 ≤ v < 24.9` gives `"Normal weight"`, `24.9 ≤ v < 29.9` gives
`"Overweight"` and `v ≥ 29.9` gives `"Obese"`. -/
theorem classification_band_boundaries (str : String) (g : Frac) (q : ℚ)
    (hp : parseNum str = JSNum.num g) (hv : g.val = q) :
    (q < 18.5 → classify str = "Underweight") ∧
    (18.5 ≤ q → q < 24.9 → classify str = "Normal weight") ∧
    (24.9 ≤ q → q < 29.9 → classify str = "Overweight") ∧
    (29.9 ≤ q → classify str = "Obese") := by
  have v185 : th185.val = (18.5 : ℚ) := by rw [th185, Frac.val]; norm_num
  have v249 : th249.val = (24.9 : ℚ) := by rw [th249, Frac.val]; norm_num
  have v299 : th299.val = (29.9 : ℚ) := by rw [th299, Frac.val]; norm_num
  have l185 : (jsLt (JSNum.num g) (JSNum.num th185) = true) ↔ q < 18.5 := by
    show g.blt th185 = true ↔ q < 18.5
    rw [Frac.blt_iff, hv, v185]
  have l249 : (jsLt (JSNum.num g) (JSNum.num th249) = true) ↔ q < 24.9 := by
    show g.blt th249 = true ↔ q < 24.9
    rw [Frac.blt_iff, hv, v249]
  have l299 : (jsLt (JSNum.num g) (JSNum.num th299) = true) ↔ q < 29.9 := by
    show g.blt th299 = true ↔ q < 29.9
    rw [Frac.blt_iff, hv, v299]
  rw [classify, hp]
  refine ⟨fun h => ?_, fun h1 h2 => ?_, fun h1 h2 => ?_, fun h => ?_⟩
  · rw [if_pos (l185.mpr h)]
  · rw [if_neg fun hc => absurd (l185.mp hc) (not_lt.mpr h1), if_pos (l249.mpr h2)]
  · rw [if_neg fun hc => absurd (l185.mp hc) (not_lt.mpr (by linarith)),
      if_neg fun hc => absurd (l249.mp hc) (not_lt.mpr h1), if_pos (l299.mpr h2)]
  · rw [if_neg fun hc => absurd (l185.mp hc) (not_lt.mpr (by linarith)),
      if_neg fun hc => absurd (l249.mp hc) (not_lt.mpr (by linarith)),
      if_neg fun hc => absurd (l299.mp hc) (not_lt.mpr h)]

/-- C2 witness: the string `"20"` is classified `"Normal weight"`. -/
theorem classification_band_boundaries_witness : classify "20" = "Normal weight" :=
  (classification_band_boundaries "20" ⟨20, 1, one_pos⟩ 20 rfl
    (by rw [Frac.val]; norm_num)).2.1 (by norm_num) (by norm_num)

/-- C3: a submission with an empty height or weight field only sets the
fixed error message; every other component of the state, `BMIResult`
included, is left exactly as it was. -/
theorem empty_submit_error_message (s : WidgetState) (h : s.height = "" ∨ s.weight = "") :
    calculateBMI s = { s with message := errMsg } :=
  calculateBMI_fail s h

/-- C3 witness: empty height with a previously computed result. -/
theorem empty_submit_error_message_witness :
    calculateBMI
        { height := "", weight := "70", bmi := some "22.86", message := "Normal weight",
          darkMode := false } =
      { height := "", weight := "70", bmi := some "22.86", message := errMsg,
        darkMode := false } :=
  empty_submit_error_message
    { height := "", weight := "70", bmi := some "22.86", message := "Normal weight",
      darkMode := false } (Or.inl rfl)

/-- C4 counterexample: from a dark-mode state, `resetForm` does not return
the initial state, because it leaves `darkMode` untouched while the initial
state has `darkMode = false`. -/
theorem reset_dark_state_not_initial :
    resetForm
        { height := "1.75", weight := "70", bmi := some "22.86", message := "Normal weight",
          darkMode := true } ≠ initState := by
  decide

/-- C4 (amended): `resetForm` sets both fields to the empty string and
clears `BMIResult` and `CategoryMessage`; `ThemeFlag` keeps its prior
value, so the result equals the initial state exactly in the other four
components. -/
theorem reset_clears_fields_keeps_theme (s : WidgetState) :
    resetForm s = { initState with darkMode := s.darkMode } := rfl

/-- C5: the three concrete scenarios of the spec, replayed as event
traces: `"1.75"`/`"70"` gives `"22.86"` and `"Normal weight"`,
`"1.60"`/`"45"` gives `"17.58"` and `"Underweight"`, `"1.80"`/`"100"`
gives `"30.86"` and `"Obese"`. -/
theorem concrete_scenarios :
    ((run [WEvent.editHeight "1.75", WEvent.editWeight "70", WEvent.submit]).bmi =
        some "22.86" ∧
      (run [WEvent.editHeight "1.75", WEvent.editWeight "70", WEvent.submit]).message =
        "Normal weight") ∧
    ((run [WEvent.editHeight "1.60", WEvent.editWeight "45", WEvent.submit]).bmi =
        some "17.58" ∧
      (run [WEvent.editHeight "1.60", WEvent.editWeight "45", WEvent.submit]).message =
        "Underweight") ∧
    ((run [WEvent.editHeight "1.80", WEvent.editWeight "100", WEvent.submit]).bmi =
        some "30.86" ∧
      (run [WEvent.editHeight "1.80", WEvent.editWeight "100", WEvent.submit]).message =
        "Obese") := by
  decide

/-- C6: in every state reachable from the initial state by any sequence of
edits, submissions, resets and theme toggles, whenever `BMIResult` holds a
string and `CategoryMessage` is not the error message, `CategoryMessage`
is exactly the classification of that string. -/
theorem message_matches_classification (es : List WEvent) (b : String)
    (hb : (run es).bmi = some b) (hm : (run es).message ≠ errMsg) :
    (run es).message = classify b :=
  msgInv_foldl es initState (fun _ hb0 _ => nomatch hb0) b hb hm

/-- C6 witness: the trace that enters `"1.75"` and `"70"` and submits. -/
theorem message_matches_classification_witness :
    (run [WEvent.editHeight "1.75", WEvent.editWeight "70", WEvent.submit]).message =
      classify "22.86" :=
  message_matches_classification
    [WEvent.editHeight "1.75", WEvent.editWeight "70", WEvent.submit] "22.86"
    (by decide) (by decide)

/-- C7: toggling the theme twice restores the whole state, and one toggle
changes nothing but `darkMode`, which it negates. -/
theorem theme_toggle_involution_frame (s : WidgetState) :
    toggleTheme (toggleTheme s) = s ∧
    (toggleTheme s).height = s.height ∧ (toggleTheme s).weight = s.weight ∧
    (toggleTheme s).bmi = s.bmi ∧ (toggleTheme s).message = s.message ∧
    (toggleTheme s).darkMode = !s.darkMode := by
  refine ⟨?_, rfl, rfl, rfl, rfl, rfl⟩
  show { s with darkMode := !!s.darkMode } = s
  rw [Bool.not_not]

/-- C8 counterexample: after a successful computation, clearing the height
field and submitting puts the §4.5 machine in `errorShown`, yet the result
block is still rendered (the stale `BMIResult` is kept), so the block is
not rendered exactly in `resultShown`. -/
theorem render_shown_in_error_state :
    (runAbs [WEvent.editHeight "1.75", WEvent.editWeight "70", WEvent.submit,
        WEvent.editHeight "", WEvent.submit]).2 = AbsState.errorShown ∧
      renderResult
        (runAbs [WEvent.editHeight "1.75", WEvent.editWeight "70", WEvent.submit,
          WEvent.editHeight "", WEvent.submit]).1 = true := by
  decide

/-- C8 (amended): running the §4.5 machine alongside the widget from the
initial state, the result block is never rendered in `empt` and always
rendered in `resultShown`, and in `errorShown` the message is the fixed
error string while the block stays rendered exactly when a previously
computed `BMIResult` persists; the rendered-iff-`resultShown` reading
fails only because a failed submission keeps the stale result visible. -/
theorem abs_machine_conformance (es : List WEvent) :
    ((runAbs es).2 = AbsState.empt → renderResult (runAbs es).1 = false) ∧
    ((runAbs es).2 = AbsState.resultShown → renderResult (runAbs es).1 = true) ∧
    ((runAbs es).2 = AbsState.errorShown → (runAbs es).1.message = errMsg) := by
  obtain ⟨g1, g2, g3⟩ := absInv_foldl es initState AbsState.empt
    (fun _ => ⟨rfl, rfl⟩) (fun h => nomatch h) (fun h => nomatch h)
  refine ⟨fun h => ?_, g2, g3⟩
  have hb : (runAbs es).1.bmi = none := (g1 h).1
  rw [renderResult, hb]

/-- C8 witness: submitting from the initial state with both fields empty. -/
theorem abs_machine_conformance_witness :
    (runAbs [WEvent.submit]).1.message = errMsg :=
  (abs_machine_conformance [WEvent.submit]).2.2 (by decide)

/-- C9: each field's change handler replaces exactly that field with the
new raw string, for any string whatsoever, and leaves the other field, the
result, the message and the theme unchanged. -/
theorem input_edit_frame (s : WidgetState) (v : String) :
    ((onHeightChange s v).height = v ∧ (onHeightChange s v).weight = s.weight ∧
      (onHeightChange s v).bmi = s.bmi ∧ (onHeightChange s v).message = s.message ∧
      (onHeightChange s v).darkMode = s.darkMode) ∧
    ((onWeightChange s v).weight = v ∧ (onWeightChange s v).height = s.height ∧
      (onWeightChange s v).bmi = s.bmi ∧ (onWeightChange s v).message = s.message ∧
      (onWeightChange s v).darkMode = s.darkMode) :=
  ⟨⟨rfl, rfl, rfl, rfl, rfl⟩, ⟨rfl, rfl, rfl, rfl, rfl⟩⟩

/-- C10: when both fields are non-empty but the quotient is `NaN` or
`+Infinity` (for instance height `"0"`), the precondition passes,
`BMIResult` is set to the formatted string (`"NaN"` or `"Infinity"`),
every comparison of that string with a numeric threshold is false, and the
message falls through the ladder to `"Obese"`. -/
theorem nonfinite_bmi_is_obese (s : WidgetState) (hne : s.height ≠ "") (wne : s.weight ≠ "")
    (hv : jsDiv (parseNum s.weight) (jsMul (parseNum s.height) (parseNum s.height)) =
        JSNum.nan ∨
      jsDiv (parseNum s.weight) (jsMul (parseNum s.height) (parseNum s.height)) =
        JSNum.posInf) :
    (calculateBMI s).bmi =
      some (toFixed2 (jsDiv (parseNum s.weight)
        (jsMul (parseNum s.height) (parseNum s.height)))) ∧
    (toFixed2 (jsDiv (parseNum s.weight) (jsMul (parseNum s.height) (parseNum s.height))) =
        "NaN" ∨
      toFixed2 (jsDiv (parseNum s.weight) (jsMul (parseNum s.height) (parseNum s.height))) =
        "Infinity") ∧
    (∀ t : Frac,
      jsLt (parseNum (toFixed2 (jsDiv (parseNum s.weight)
        (jsMul (parseNum s.height) (parseNum s.height))))) (JSNum.num t) = false) ∧
    (calculateBMI s).message = "Obese" := by
  rw [calculateBMI_success s hne wne]
  rcases hv with h | h <;> rw [h]
  · refine ⟨rfl, Or.inl rfl, fun t => rfl, ?_⟩
    show classify (toFixed2 JSNum.nan) = "Obese"
    decide
  · refine ⟨rfl, Or.inr rfl, fun t => rfl, ?_⟩
    show classify (toFixed2 JSNum.posInf) = "Obese"
    decide

/-- C10 witness: height `"0"`, weight `"70"` gives `"Infinity"`. -/
theorem nonfinite_bmi_is_obese_witness :
    (calculateBMI
        { height := "0", weight := "70", bmi := none, message := "",
          darkMode := false }).bmi = some "Infinity" ∧
      (calculateBMI
        { height := "0", weight := "70", bmi := none, message := "",
          darkMode := false }).message = "Obese" := by
  have h := nonfinite_bmi_is_obese
    { height := "0", weight := "70", bmi := none, message := "", darkMode := false }
    (by decide) (by decide) (Or.inr rfl)
  refine ⟨?_, h.2.2.2⟩
  rw [h.1]
  rfl
